import Mathlib

/-!
Verification of the Astra architecture-generation core: the component
catalog, connection rules, cost model, graph synthesizer
(web/backend/app) and the carbon model (web-dashboard/backend/app),
embedded shallowly.  Python floats are modelled as rationals; Python's
`round(x, n)` (banker's rounding) is modelled by `pyRound`.
-/

/-- Python's `round` to an integer: round half to even (banker's rounding). -/
def pyRound (q : ℚ) : ℤ :=
  if q - ⌊q⌋ < 1/2 then ⌊q⌋
  else if 1/2 < q - ⌊q⌋ then ⌊q⌋ + 1
  else if ⌊q⌋ % 2 = 0 then ⌊q⌋ else ⌊q⌋ + 1

/-- Python's `round(x, 2)`. -/
def round2 (q : ℚ) : ℚ := (pyRound (q * 100) : ℚ) / 100

/-- Python's `round(x, 4)`. -/
def round4 (q : ℚ) : ℚ := (pyRound (q * 10000) : ℚ) / 10000

/-- A catalog entry from `components_data.COMPONENTS`; the
`pricing_tier` and `description` fields are carried by the source dicts
but never read by the modelled code paths, so they are not modelled. -/
structure Component where
  id : String
  name : String
  category : String
  base_cost : ℚ
deriving DecidableEq, Repr

/-- The full `COMPONENTS` table of `components_data.py`. -/
def COMPONENTS : List Component := [
  ⟨"nextjs", "Next.js", "frontend", 0⟩,
  ⟨"react", "React", "frontend", 0⟩,
  ⟨"vue", "Vue.js", "frontend", 0⟩,
  ⟨"angular", "Angular", "frontend", 0⟩,
  ⟨"svelte", "Svelte", "frontend", 0⟩,
  ⟨"fastapi", "FastAPI", "backend", 0⟩,
  ⟨"django", "Django", "backend", 0⟩,
  ⟨"flask", "Flask", "backend", 0⟩,
  ⟨"nodejs", "Node.js", "backend", 0⟩,
  ⟨"express", "Express.js", "backend", 0⟩,
  ⟨"nestjs", "NestJS", "backend", 0⟩,
  ⟨"springboot", "Spring Boot", "backend", 0⟩,
  ⟨"golang", "Go/Gin", "backend", 0⟩,
  ⟨"postgresql", "PostgreSQL", "database", 25⟩,
  ⟨"mongodb", "MongoDB", "database", 25⟩,
  ⟨"mysql", "MySQL", "database", 20⟩,
  ⟨"redis", "Redis", "database", 15⟩,
  ⟨"elasticsearch", "Elasticsearch", "database", 40⟩,
  ⟨"cassandra", "Cassandra", "database", 35⟩,
  ⟨"vercel", "Vercel", "hosting", 20⟩,
  ⟨"netlify", "Netlify", "hosting", 19⟩,
  ⟨"aws_ec2", "AWS EC2", "hosting", 50⟩,
  ⟨"aws_lambda", "AWS Lambda", "hosting", 10⟩,
  ⟨"gcp_compute", "GCP Compute Engine", "hosting", 48⟩,
  ⟨"gcp_cloud_run", "Google Cloud Run", "hosting", 12⟩,
  ⟨"azure_vm", "Azure VM", "hosting", 52⟩,
  ⟨"heroku", "Heroku", "hosting", 25⟩,
  ⟨"digitalocean", "DigitalOcean", "hosting", 30⟩,
  ⟨"aws_s3", "AWS S3", "storage", 5⟩,
  ⟨"gcp_storage", "Google Cloud Storage", "storage", 5⟩,
  ⟨"azure_blob", "Azure Blob Storage", "storage", 5⟩,
  ⟨"cloudinary", "Cloudinary", "storage", 15⟩,
  ⟨"nginx", "Nginx", "infrastructure", 0⟩,
  ⟨"kong", "Kong", "infrastructure", 50⟩,
  ⟨"aws_alb", "AWS Application Load Balancer", "infrastructure", 25⟩,
  ⟨"cloudflare", "Cloudflare", "infrastructure", 20⟩,
  ⟨"auth0", "Auth0", "authentication", 30⟩,
  ⟨"firebase_auth", "Firebase Auth", "authentication", 10⟩,
  ⟨"cognito", "AWS Cognito", "authentication", 15⟩,
  ⟨"clerk", "Clerk", "authentication", 25⟩,
  ⟨"openai", "OpenAI API", "ai_ml", 50⟩,
  ⟨"gemini", "Google Gemini", "ai_ml", 30⟩,
  ⟨"anthropic", "Anthropic Claude", "ai_ml", 45⟩,
  ⟨"huggingface", "Hugging Face", "ai_ml", 25⟩,
  ⟨"aws_sagemaker", "AWS SageMaker", "ai_ml", 100⟩,
  ⟨"rabbitmq", "RabbitMQ", "messaging", 20⟩,
  ⟨"kafka", "Apache Kafka", "messaging", 40⟩,
  ⟨"aws_sqs", "AWS SQS", "messaging", 10⟩,
  ⟨"pubsub", "Google Pub/Sub", "messaging", 12⟩,
  ⟨"datadog", "Datadog", "monitoring", 60⟩,
  ⟨"newrelic", "New Relic", "monitoring", 55⟩,
  ⟨"prometheus", "Prometheus", "monitoring", 0⟩,
  ⟨"grafana", "Grafana", "monitoring", 0⟩,
  ⟨"google_analytics", "Google Analytics", "analytics", 0⟩,
  ⟨"mixpanel", "Mixpanel", "analytics", 35⟩,
  ⟨"amplitude", "Amplitude", "analytics", 40⟩,
  ⟨"github_actions", "GitHub Actions", "cicd", 10⟩,
  ⟨"jenkins", "Jenkins", "cicd", 0⟩,
  ⟨"circleci", "CircleCI", "cicd", 15⟩,
  ⟨"gitlab_ci", "GitLab CI", "cicd", 12⟩,
  ⟨"sendgrid", "SendGrid", "email", 20⟩,
  ⟨"mailgun", "Mailgun", "email", 18⟩,
  ⟨"ses", "AWS SES", "email", 5⟩,
  ⟨"stripe", "Stripe", "payment", 0⟩,
  ⟨"paypal", "PayPal", "payment", 0⟩,
  ⟨"square", "Square", "payment", 0⟩,
  ⟨"algolia", "Algolia", "search", 30⟩,
  ⟨"meilisearch", "Meilisearch", "search", 0⟩,
  ⟨"kubernetes", "Kubernetes", "infrastructure", 70⟩,
  ⟨"docker", "Docker", "infrastructure", 0⟩]

/-- `components_data.get_component_by_id`: linear scan for the first
entry whose `id` matches; `None` when absent. -/
def get_component_by_id (component_id : String) : Option Component :=
  COMPONENTS.find? (fun c => c.id == component_id)

/-- An identifier resolves in the catalog. -/
def isKnown (component_id : String) : Bool :=
  (get_component_by_id component_id).isSome

/-- `Scope` (models/architecture.py): a Pydantic model whose five fields
all carry defaults (`users=1000`, `trafficLevel=3`, `dataVolumeGB=100.0`,
`regions=1`, `availability=99.9`), mirrored here as Lean field defaults. -/
structure Scope where
  users : ℤ := 1000
  trafficLevel : ℤ := 3
  dataVolumeGB : ℚ := 100
  regions : ℤ := 1
  availability : ℚ := 999/10
deriving DecidableEq, Repr

/-- `CostCalculator.get_user_multiplier`: the loop over `USER_TIERS`
`[(1000,1.0),(10000,1.5),(100000,2.5),(1000000,4.0),(inf,6.0)]` returns
the multiplier of the first tier whose threshold the user count does not
exceed; the `inf` tier makes the trailing `return 6.0` unreachable. -/
def get_user_multiplier (users : ℤ) : ℚ :=
  if users ≤ 1000 then 1
  else if users ≤ 10000 then 3/2
  else if users ≤ 100000 then 5/2
  else if users ≤ 1000000 then 4
  else 6

/-- `CostCalculator.get_traffic_multiplier`: `TRAFFIC_MULTIPLIERS.get(level, 2.0)`. -/
def get_traffic_multiplier (traffic_level : ℤ) : ℚ :=
  if traffic_level = 1 then 1
  else if traffic_level = 2 then 3/2
  else if traffic_level = 3 then 2
  else if traffic_level = 4 then 3
  else if traffic_level = 5 then 5
  else 2

/-- `CostCalculator.get_region_multiplier`: `1.8` for 4+ regions, else
`REGION_MULTIPLIERS.get(regions, 1.0)`. -/
def get_region_multiplier (regions : ℤ) : ℚ :=
  if regions ≥ 4 then 9/5
  else if regions = 1 then 1
  else if regions = 2 then 13/10
  else if regions = 3 then 3/2
  else 1

/-- `CostCalculator.get_availability_multiplier`: first tier of
`AVAILABILITY_MULTIPLIERS` (in insertion order 99.0, 99.9, 99.95, 99.99,
99.999) whose key the requested availability does not exceed; else 2.5. -/
def get_availability_multiplier (availability : ℚ) : ℚ :=
  if availability ≤ 99 then 1
  else if availability ≤ 999/10 then 6/5
  else if availability ≤ 9995/100 then 7/5
  else if availability ≤ 9999/100 then 17/10
  else if availability ≤ 99999/1000 then 5/2
  else 5/2

/-- `CostCalculator.DATA_COST_PER_GB = 0.023`. -/
def DATA_COST_PER_GB : ℚ := 23/1000

/-- `CostCalculator.calculate_component_cost`: `(0,0)` for unknown ids
and free-tier components, otherwise base cost and the category-specific
scaled cost rounded to 2 decimal places. -/
def calculate_component_cost (component_id : String) (scope : Scope) : ℚ × ℚ :=
  match get_component_by_id component_id with
  | none => (0, 0)
  | some component =>
    let base_cost := component.base_cost
    if base_cost = 0 then (0, 0)
    else
      let user_mult := get_user_multiplier scope.users
      let traffic_mult := get_traffic_multiplier scope.trafficLevel
      let region_mult := get_region_multiplier scope.regions
      let availability_mult := get_availability_multiplier scope.availability
      let category := component.category
      let scaled_cost :=
        if category = "database" ∨ category = "storage" then
          base_cost * user_mult * traffic_mult * region_mult * availability_mult
            + scope.dataVolumeGB * DATA_COST_PER_GB
        else if category = "hosting" ∨ category = "infrastructure" then
          base_cost * user_mult * traffic_mult * region_mult * availability_mult
        else if category = "ai_ml" ∨ category = "search" then
          base_cost * user_mult * traffic_mult
        else if category = "monitoring" ∨ category = "analytics" then
          base_cost * region_mult * availability_mult
        else
          base_cost * user_mult * traffic_mult
      (base_cost, round2 scaled_cost)

/-- One `CostBreakdown` record (models/architecture.py). -/
structure CostBreakdown where
  category : String
  component : String
  componentId : String
  baseCost : ℚ
  scaledCost : ℚ
deriving DecidableEq, Repr

/-- Result shape of `calculate_architecture_cost`. -/
structure CostResult where
  total : ℚ
  breakdown : List CostBreakdown
deriving DecidableEq, Repr

/-- The loop body of `CostCalculator.calculate_architecture_cost`:
builds the breakdown list and accumulates the (unrounded) running total
of the per-component scaled costs, skipping unknown ids. -/
def archCostLoop (scope : Scope) : List String → (List CostBreakdown × ℚ)
  | [] => ([], 0)
  | component_id :: rest =>
    match get_component_by_id component_id with
    | none => archCostLoop scope rest
    | some component =>
      let bs := calculate_component_cost component_id scope
      let acc := archCostLoop scope rest
      (⟨component.category, component.name, component_id, bs.1, bs.2⟩ :: acc.1,
       bs.2 + acc.2)

/-- `CostCalculator.calculate_architecture_cost`: breakdown per
resolvable id and `round(total, 2)`. -/
def calculate_architecture_cost (component_ids : List String) (scope : Scope) :
    CostResult :=
  let acc := archCostLoop scope component_ids
  ⟨round2 acc.2, acc.1⟩

/-! ### Basic facts about the loop total and the multipliers -/

/-- The running total accumulated by the architecture-cost loop equals
the sum of the scaled costs of the breakdown entries it builds. -/
theorem archCostLoop_total_eq_sum (scope : Scope) (ids : List String) :
    (archCostLoop scope ids).2 =
      ((archCostLoop scope ids).1.map CostBreakdown.scaledCost).sum := by
  induction ids with
  | nil => simp [archCostLoop]
  | cons cid rest ih =>
    cases h : get_component_by_id cid with
    | none => simpa [archCostLoop, h] using ih
    | some comp => simp [archCostLoop, h, ih]

/-- The scaled costs recorded by the cost loop's breakdown are exactly
the per-component scaled costs of the resolvable identifiers, in input
order. -/
theorem archCostLoop_scaledCosts (scope : Scope) (ids : List String) :
    (archCostLoop scope ids).1.map CostBreakdown.scaledCost =
      (ids.filter isKnown).map
        (fun cid => (calculate_component_cost cid scope).2) := by
  induction ids with
  | nil => rfl
  | cons cid rest ih =>
    cases hc : get_component_by_id cid with
    | none =>
      have hk : isKnown cid = false := by simp [isKnown, hc]
      simp only [archCostLoop, hc, List.filter_cons, hk, Bool.false_eq_true,
        if_false]
      exact ih
    | some comp =>
      have hk : isKnown cid = true := by simp [isKnown, hc]
      simp only [archCostLoop, hc, List.filter_cons, hk, if_true,
        List.map_cons]
      rw [ih]

/-- Claim C2: for every list of component identifiers and every scope,
the total reported by `calculate_architecture_cost` equals the
2-decimal rounding of the sum of the breakdown entries' scaled costs,
and each breakdown entry's scaled cost is itself the 2-decimal-rounded
per-component scaled cost of its identifier. -/
theorem C2_total_eq_rounded_breakdown_sum (ids : List String) (scope : Scope) :
    (calculate_architecture_cost ids scope).total =
      round2 (((calculate_architecture_cost ids scope).breakdown.map
        CostBreakdown.scaledCost).sum) ∧
    (calculate_architecture_cost ids scope).breakdown.map
        CostBreakdown.scaledCost =
      (ids.filter isKnown).map
        (fun cid => (calculate_component_cost cid scope).2) := by
  constructor
  · unfold calculate_architecture_cost
    rw [← archCostLoop_total_eq_sum]
  · unfold calculate_architecture_cost
    exact archCostLoop_scaledCosts scope ids

/-- Claim C5: `get_user_multiplier` is the step function with
breakpoints 1,000/10,000/100,000/1,000,000 giving 1.0/1.5/2.5/4.0
(first breakpoint the user count is ≤ wins) and 6.0 above the largest
finite breakpoint; hence it is non-decreasing, and it takes the values
1.0, 1.0, 1.5 and 6.0 at 999, 1000, 1001 and 10^7. -/
theorem C5_user_multiplier_step :
    (∀ u : ℤ, u ≤ 1000 → get_user_multiplier u = 1) ∧
    (∀ u : ℤ, 1000 < u → u ≤ 10000 → get_user_multiplier u = 3/2) ∧
    (∀ u : ℤ, 10000 < u → u ≤ 100000 → get_user_multiplier u = 5/2) ∧
    (∀ u : ℤ, 100000 < u → u ≤ 1000000 → get_user_multiplier u = 4) ∧
    (∀ u : ℤ, 1000000 < u → get_user_multiplier u = 6) ∧
    (∀ a b : ℤ, a ≤ b → get_user_multiplier a ≤ get_user_multiplier b) ∧
    get_user_multiplier 999 = 1 ∧ get_user_multiplier 1000 = 1 ∧
    get_user_multiplier 1001 = 3/2 ∧ get_user_multiplier (10^7) = 6 := by
  refine ⟨?_, ?_, ?_, ?_, ?_, ?_, ?_, ?_, ?_, ?_⟩
  · intro u h
    unfold get_user_multiplier
    split_ifs <;> (try norm_num) <;> omega
  · intro u h h'
    unfold get_user_multiplier
    split_ifs <;> (try norm_num) <;> omega
  · intro u h h'
    unfold get_user_multiplier
    split_ifs <;> (try norm_num) <;> omega
  · intro u h h'
    unfold get_user_multiplier
    split_ifs <;> (try norm_num) <;> omega
  · intro u h
    unfold get_user_multiplier
    split_ifs <;> (try norm_num) <;> omega
  · intro a b hab
    unfold get_user_multiplier
    split_ifs <;> (try norm_num) <;> omega
  · unfold get_user_multiplier; norm_num
  · unfold get_user_multiplier; norm_num
  · unfold get_user_multiplier; norm_num
  · unfold get_user_multiplier; norm_num

/-- Witness for C5 at concrete user counts. -/
theorem C5_user_multiplier_step_witness :
    get_user_multiplier 500 = 1 ∧ get_user_multiplier 20000 = 5/2 ∧
      get_user_multiplier 1001 ≤ get_user_multiplier 999999999 :=
  ⟨C5_user_multiplier_step.1 500 (by norm_num),
   C5_user_multiplier_step.2.2.1 20000 (by norm_num) (by norm_num),
   C5_user_multiplier_step.2.2.2.2.2.1 1001 999999999 (by norm_num)⟩

/-- Claim C6: `calculate_component_cost` returns `(0, 0)` whenever the
identifier does not resolve in the catalog or the resolved component's
base monthly cost is 0, regardless of the scope. -/
theorem C6_free_tier_never_scales (component_id : String) (scope : Scope)
    (h : get_component_by_id component_id = none ∨
      ∃ c, get_component_by_id component_id = some c ∧ c.base_cost = 0) :
    calculate_component_cost component_id scope = (0, 0) := by
  rcases h with h | ⟨c, hc, hc0⟩
  · simp [calculate_component_cost, h]
  · simp [calculate_component_cost, hc, hc0]

/-- Witness for C6: `nextjs` is a free-tier catalog entry. -/
theorem C6_free_tier_never_scales_witness :
    (get_component_by_id "nextjs" = none ∨
      ∃ c, get_component_by_id "nextjs" = some c ∧ c.base_cost = 0) ∧
    calculate_component_cost "nextjs" {} = (0, 0) :=
  ⟨Or.inr ⟨⟨"nextjs", "Next.js", "frontend", 0⟩, by decide, rfl⟩,
   C6_free_tier_never_scales "nextjs" {}
     (Or.inr ⟨⟨"nextjs", "Next.js", "frontend", 0⟩, by decide, rfl⟩)⟩

/-! ### Connection rules (connection_validator.py) -/

/-- `ConnectionValidator.VALID_CONNECTIONS`: the fixed set of ordered
(source category, target category) pairs, modelled as a duplicate-free
list in source order (the source's set literal repeats
("backend", "messaging"); Python set semantics keeps one copy). -/
def VALID_CONNECTIONS : List (String × String) := [
  ("frontend", "backend"),
  ("frontend", "authentication"),
  ("frontend", "hosting"),
  ("frontend", "infrastructure"),
  ("backend", "database"),
  ("backend", "storage"),
  ("backend", "authentication"),
  ("backend", "ai_ml"),
  ("backend", "messaging"),
  ("backend", "email"),
  ("backend", "payment"),
  ("backend", "search"),
  ("backend", "hosting"),
  ("infrastructure", "frontend"),
  ("infrastructure", "backend"),
  ("infrastructure", "database"),
  ("backend", "backend"),
  ("hosting", "backend"),
  ("hosting", "frontend"),
  ("database", "storage"),
  ("monitoring", "frontend"),
  ("monitoring", "backend"),
  ("monitoring", "database"),
  ("monitoring", "infrastructure"),
  ("monitoring", "hosting"),
  ("analytics", "frontend"),
  ("analytics", "backend"),
  ("cicd", "hosting"),
  ("cicd", "infrastructure"),
  ("messaging", "backend")]

/-- `ConnectionValidator.is_valid_connection`. -/
def is_valid_connection (source_category target_category : String) : Bool :=
  VALID_CONNECTIONS.contains (source_category, target_category)

/-- `ConnectionValidator.get_valid_targets`: the target categories paired
with a given source category (a Python set; modelled as a list in table
order — the pairs are distinct, so it has no duplicates). -/
def get_valid_targets (source_category : String) : List String :=
  (VALID_CONNECTIONS.filter (fun p => p.1 == source_category)).map Prod.snd

/-- `ConnectionValidator.get_valid_sources`. -/
def get_valid_sources (target_category : String) : List String :=
  (VALID_CONNECTIONS.filter (fun p => p.2 == target_category)).map Prod.fst

/-! ### Graph synthesizer (architecture_service.py) -/

/-- A node position (stored as floats by the source; the values are
produced by exact integer arithmetic, so they are modelled as casts of
natural-number arithmetic into ℚ). -/
structure NodePosition where
  x : ℚ
  y : ℚ
deriving DecidableEq, Repr

/-- A node's data payload; the `icon`, `color` and `config` fields are
presentation-only constants in the source and are not modelled. -/
structure NodeData where
  label : String
  componentId : String
  category : String
deriving DecidableEq, Repr

/-- A canvas node; the constant `type="custom"` field is not modelled. -/
structure Node where
  id : String
  position : NodePosition
  data : NodeData
deriving DecidableEq, Repr

/-- An edge; the constant `type="custom"` field is not modelled. -/
structure Edge where
  id : String
  source : String
  target : String
  sourceHandle : String
  targetHandle : String
deriving DecidableEq, Repr

/-- `ArchitectureService.CATEGORY_LAYERS.get(category, 3)`. -/
def layerOfCategory (category : String) : ℕ :=
  match category with
  | "frontend" => 0
  | "infrastructure" => 1
  | "backend" => 2
  | "authentication" => 2
  | "database" => 3
  | "storage" => 3
  | "messaging" => 3
  | "search" => 3
  | "ai_ml" => 3
  | "email" => 3
  | "payment" => 3
  | "hosting" => 4
  | "monitoring" => 5
  | "analytics" => 5
  | "cicd" => 6
  | _ => 3

/-- `ArchitectureService.calculate_node_position`:
`(START_X + layer*300, START_Y + index*150)`, computed in exact integer
arithmetic by the source. -/
def calculate_node_position (layer index_in_layer : ℕ) : NodePosition :=
  ⟨((100 + layer * 300 : ℕ) : ℚ), ((100 + index_in_layer * 150 : ℕ) : ℚ)⟩

/-- `ArchitectureService.generate_node_id` appends a random 8-character
suffix (`secrets.token_urlsafe`) to the component id; the claims only
need node ids to be distinct within one generated graph, so the
randomness is modelled by a deterministic layer/index suffix. -/
def generate_node_id (component_id : String) (layer index_in_layer : ℕ) : String :=
  component_id ++ "-" ++ toString layer ++ "-" ++ toString index_in_layer

/-- `ArchitectureService.create_node_from_component`: `None` for an
unknown id, otherwise a node carrying the component's name and category. -/
def create_node_from_component (component_id : String) (layer index_in_layer : ℕ) :
    Option Node :=
  (get_component_by_id component_id).map (fun component =>
    ⟨generate_node_id component_id layer index_in_layer,
     calculate_node_position layer index_in_layer,
     ⟨component.name, component_id, component.category⟩⟩)

/-- An identifier resolves to a component whose category maps to the
given layer. -/
def resolvesToLayer (cid : String) (layer : ℕ) : Bool :=
  match get_component_by_id cid with
  | none => false
  | some component => layerOfCategory component.category == layer

/-- The members of one layer of the `layers` dict built by
`generate_architecture_from_components`: the resolvable ids whose
category maps to the given layer, in input order. -/
def layerComponents (component_ids : List String) (layer : ℕ) : List String :=
  component_ids.filter (fun cid => resolvesToLayer cid layer)

/-- The node-creation loop over one layer's components
(`for idx, comp_id in enumerate(components_in_layer)`): the index
advances per component; the `if node` guard skips unresolvable ids
(unreachable here, since grouping already dropped them). -/
def nodesInLayer (layer : ℕ) : ℕ → List String → List Node
  | _, [] => []
  | idx, cid :: rest =>
    match create_node_from_component cid layer idx with
    | none => nodesInLayer layer (idx + 1) rest
    | some node => node :: nodesInLayer layer (idx + 1) rest

/-- Node creation of `generate_architecture_from_components`: layers are
visited in sorted order (the layer map's values all lie below 7, so
iterating layers 0..6 and skipping empty ones is `sorted(layers.keys())`). -/
def generate_nodes (component_ids : List String) : List Node :=
  (List.range 7).flatMap (fun layer =>
    nodesInLayer layer 0 (layerComponents component_ids layer))

/-- First node (in creation order) of a category:
`nodes_by_category[target_category][0]`. -/
def first_of_category (nodes : List Node) (category : String) : Option Node :=
  nodes.find? (fun n => n.data.category == category)

/-- The edge built by `generate_edges` for a source/target node pair; the
random edge-id suffix is modelled deterministically from the endpoint
ids (no claim depends on its value). -/
def mkEdge (s t : Node) : Edge :=
  ⟨"e-" ++ s.id ++ "-" ++ t.id, s.id, t.id,
   if s.position.x < t.position.x then "right" else "bottom",
   if s.position.x < t.position.x then "left" else "top"⟩

/-- The edges drawn for one source node: one per valid target category
that has at least one node, to the first node of that category. -/
def edges_from (nodes : List Node) (s : Node) : List Edge :=
  (get_valid_targets s.data.category).filterMap (fun c =>
    (first_of_category nodes c).map (mkEdge s))

/-- `ArchitectureService.generate_edges`. -/
def generate_edges (nodes : List Node) : List Edge :=
  nodes.flatMap (edges_from nodes)

/-- Result shape of `generate_architecture_from_components`
(`ArchitectureJson`); the pass-through `scope` and `timestamp=None`
fields are not modelled. -/
structure ArchitectureJson where
  nodes : List Node
  edges : List Edge
  costEstimate : CostResult
deriving DecidableEq, Repr

/-- `ArchitectureService.generate_architecture_from_components`. -/
def generate_architecture_from_components (component_ids : List String)
    (scope : Scope) : ArchitectureJson :=
  let nodes := generate_nodes component_ids
  ⟨nodes, generate_edges nodes, calculate_architecture_cost component_ids scope⟩

/-! ### Concrete catalog lookups used by the example claims -/

/-- Catalog lookup fact: `nextjs`. -/
theorem lookup_nextjs :
    get_component_by_id "nextjs" = some ⟨"nextjs", "Next.js", "frontend", 0⟩ := by
  decide

/-- Catalog lookup fact: `fastapi`. -/
theorem lookup_fastapi :
    get_component_by_id "fastapi" = some ⟨"fastapi", "FastAPI", "backend", 0⟩ := by
  decide

/-- Catalog lookup fact: `postgresql`. -/
theorem lookup_postgresql :
    get_component_by_id "postgresql" =
      some ⟨"postgresql", "PostgreSQL", "database", 25⟩ := by
  decide

/-- Claim C1: for `["nextjs","fastapi","postgresql"]` with scope
users=1000, trafficLevel=3, dataVolumeGB=100, regions=1,
availability=99.9, exactly three nodes are produced at positions
(100,100), (700,100), (1000,100); the edges include one from the
frontend node to the backend node and one from the backend node to the
database node; and the `postgresql` breakdown entry has scaled cost
25 × 1.0 × 2.0 × 1.0 × 1.2 + 100 × 0.023 = 62.3. -/
theorem C1_concrete_three_component_architecture :
    ((generate_architecture_from_components ["nextjs", "fastapi", "postgresql"]
        ⟨1000, 3, 100, 1, 999/10⟩).nodes.map
      (fun n => (n.data.componentId, n.position.x, n.position.y)) =
      [("nextjs", 100, 100), ("fastapi", 700, 100), ("postgresql", 1000, 100)]) ∧
    (∃ nf ∈ (generate_architecture_from_components ["nextjs", "fastapi", "postgresql"]
        ⟨1000, 3, 100, 1, 999/10⟩).nodes,
      ∃ nb ∈ (generate_architecture_from_components ["nextjs", "fastapi", "postgresql"]
        ⟨1000, 3, 100, 1, 999/10⟩).nodes,
        nf.data.category = "frontend" ∧ nb.data.category = "backend" ∧
        ∃ e ∈ (generate_architecture_from_components ["nextjs", "fastapi", "postgresql"]
          ⟨1000, 3, 100, 1, 999/10⟩).edges, e.source = nf.id ∧ e.target = nb.id) ∧
    (∃ nb ∈ (generate_architecture_from_components ["nextjs", "fastapi", "postgresql"]
        ⟨1000, 3, 100, 1, 999/10⟩).nodes,
      ∃ nd ∈ (generate_architecture_from_components ["nextjs", "fastapi", "postgresql"]
        ⟨1000, 3, 100, 1, 999/10⟩).nodes,
        nb.data.category = "backend" ∧ nd.data.category = "database" ∧
        ∃ e ∈ (generate_architecture_from_components ["nextjs", "fastapi", "postgresql"]
          ⟨1000, 3, 100, 1, 999/10⟩).edges, e.source = nb.id ∧ e.target = nd.id) ∧
    (∃ b ∈ (generate_architecture_from_components ["nextjs", "fastapi", "postgresql"]
        ⟨1000, 3, 100, 1, 999/10⟩).costEstimate.breakdown,
      b.componentId = "postgresql" ∧ b.scaledCost = 623/10) := by
  refine ⟨by decide, by decide, by decide, ?_⟩
  have hcost : (generate_architecture_from_components ["nextjs", "fastapi", "postgresql"]
      ⟨1000, 3, 100, 1, 999/10⟩).costEstimate =
      calculate_architecture_cost ["nextjs", "fastapi", "postgresql"]
        ⟨1000, 3, 100, 1, 999/10⟩ := rfl
  rw [hcost]
  refine ⟨⟨"database", "PostgreSQL", "postgresql", 25, 623/10⟩, ?_, rfl, rfl⟩
  norm_num [calculate_architecture_cost, archCostLoop, calculate_component_cost,
    lookup_nextjs, lookup_fastapi, lookup_postgresql, get_user_multiplier,
    get_traffic_multiplier, get_region_multiplier, get_availability_multiplier,
    DATA_COST_PER_GB, round2, pyRound]


/-! ### Silent exclusion of unknown identifiers -/

/-- Filtering by a predicate that implies another predicate is not
affected by first filtering by the weaker one. -/
theorem filter_filter_of_imp {α : Type} (l : List α) (p q : α → Bool)
    (h : ∀ a, q a = true → p a = true) : (l.filter p).filter q = l.filter q := by
  induction l with
  | nil => rfl
  | cons a t ih =>
    by_cases hp : p a = true
    · rw [List.filter_cons, if_pos hp, List.filter_cons, List.filter_cons, ih]
    · have hq : ¬(q a = true) := fun hqa => hp (h a hqa)
      rw [List.filter_cons, if_neg hp, ih, List.filter_cons, if_neg hq]

/-- Membership in a layer implies the identifier resolves. -/
theorem resolvesToLayer_isKnown (cid : String) (layer : ℕ)
    (h : resolvesToLayer cid layer = true) : isKnown cid = true := by
  unfold resolvesToLayer at h
  cases hc : get_component_by_id cid with
  | none => rw [hc] at h; exact absurd h (by simp)
  | some comp => simp [isKnown, hc]

/-- The per-layer grouping ignores identifiers that do not resolve. -/
theorem layerComponents_filter_isKnown (ids : List String) (layer : ℕ) :
    layerComponents (ids.filter isKnown) layer = layerComponents ids layer :=
  filter_filter_of_imp ids isKnown (fun cid => resolvesToLayer cid layer)
    (fun cid => resolvesToLayer_isKnown cid layer)

/-- The cost loop ignores identifiers that do not resolve. -/
theorem archCostLoop_filter_isKnown (scope : Scope) (ids : List String) :
    archCostLoop scope (ids.filter isKnown) = archCostLoop scope ids := by
  induction ids with
  | nil => rfl
  | cons cid rest ih =>
    cases hc : get_component_by_id cid with
    | none =>
      have hk : isKnown cid = false := by simp [isKnown, hc]
      rw [List.filter_cons, hk]
      simp only [Bool.false_eq_true, if_false]
      rw [ih]
      conv_rhs => rw [archCostLoop]
      rw [hc]
    | some comp =>
      have hk : isKnown cid = true := by simp [isKnown, hc]
      rw [List.filter_cons, hk, if_pos rfl]
      rw [archCostLoop, hc]
      conv_rhs => rw [archCostLoop]
      rw [hc, ih]

/-- Claim C4: unresolvable component identifiers are silently excluded —
generating from any identifier list gives exactly the same architecture
as generating from its resolvable sublist (no node, no edge, no
breakdown entry, and no failure: generation is a total function) — and
generating from the empty list gives empty nodes, empty edges, and a
zero cost total with an empty breakdown. -/
theorem C4_unknown_ids_silently_excluded (ids : List String) (scope : Scope) :
    generate_architecture_from_components (ids.filter isKnown) scope =
      generate_architecture_from_components ids scope ∧
    generate_architecture_from_components [] scope = ⟨[], [], ⟨0, []⟩⟩ := by
  constructor
  · unfold generate_architecture_from_components
    have hn : generate_nodes (ids.filter isKnown) = generate_nodes ids := by
      unfold generate_nodes
      simp only [layerComponents_filter_isKnown]
    rw [hn]
    unfold calculate_architecture_cost
    rw [archCostLoop_filter_isKnown]
  · unfold generate_architecture_from_components generate_nodes
    norm_num [layerComponents, nodesInLayer, List.range_succ, generate_edges,
      calculate_architecture_cost, archCostLoop, round2, pyRound]

/-! ### Duplicates are not collapsed -/

/-- Every category layer index lies below 7. -/
theorem layerOfCategory_lt_seven (category : String) : layerOfCategory category < 7 := by
  unfold layerOfCategory
  split <;> omega

/-- The node-creation loop produces one node per component when every
identifier in the layer resolves. -/
theorem nodesInLayer_length (layer : ℕ) (comps : List String)
    (h : ∀ cid ∈ comps, isKnown cid = true) :
    ∀ idx, (nodesInLayer layer idx comps).length = comps.length := by
  induction comps with
  | nil => intro idx; rfl
  | cons cid rest ih =>
    intro idx
    have hk : isKnown cid = true := h cid (List.mem_cons_self cid rest)
    obtain ⟨comp, hc⟩ := Option.isSome_iff_exists.mp hk
    rw [nodesInLayer]
    rw [create_node_from_component, hc]
    simp only [Option.map]
    rw [List.length_cons, ih (fun x hx => h x (List.mem_cons_of_mem cid hx)) (idx + 1)]
    rfl

/-- Everything grouped into a layer resolves. -/
theorem mem_layerComponents_isKnown (ids : List String) (layer : ℕ) (cid : String)
    (h : cid ∈ layerComponents ids layer) : isKnown cid = true := by
  unfold layerComponents at h
  exact resolvesToLayer_isKnown cid layer (List.mem_filter.mp h).2

/-- Summing a function over `range n` after bumping it by one at a
single point below `n` adds one to the sum. -/
theorem sum_map_range_update (n L : ℕ) (g g' : ℕ → ℕ)
    (hg : ∀ l, g' l = if l = L then g l + 1 else g l) (hL : L < n) :
    ((List.range n).map g').sum = ((List.range n).map g).sum + 1 := by
  induction n with
  | zero => omega
  | succ m ih =>
    rw [List.range_succ, List.map_append, List.map_append, List.sum_append,
      List.sum_append]
    by_cases hLm : L = m
    · have heq : (List.range m).map g' = (List.range m).map g := by
        apply List.map_congr_left
        intro l hl
        have : l ≠ L := by
          have := List.mem_range.mp hl; omega
        rw [hg l, if_neg this]
      rw [heq, List.map_singleton, List.map_singleton, hg m, if_pos (hLm.symm)]
      simp [List.sum_cons]
      omega
    · have hL' : L < m := by omega
      rw [ih hL']
      have : g' m = g m := by
        rw [hg m, if_neg (fun hh : m = L => hLm hh.symm)]
      rw [List.map_singleton, List.map_singleton, this]
      omega

/-- The per-layer partition of the resolvable identifiers is exhaustive:
the layer sizes over layers 0..6 sum to the number of resolvable ids. -/
theorem sum_layerComponents_length (ids : List String) :
    ((List.range 7).map (fun l => (layerComponents ids l).length)).sum =
      (ids.filter isKnown).length := by
  induction ids with
  | nil => simp [layerComponents]
  | cons cid rest ih =>
    cases hc : get_component_by_id cid with
    | none =>
      have hr : ∀ l, layerComponents (cid :: rest) l = layerComponents rest l := by
        intro l
        unfold layerComponents
        rw [List.filter_cons]
        have : resolvesToLayer cid l = false := by
          unfold resolvesToLayer; rw [hc]
        rw [this]
        simp
      have hk : isKnown cid = false := by simp [isKnown, hc]
      simp only [hr, ih, List.filter_cons, hk, Bool.false_eq_true, if_false]
    | some comp =>
      have hk : isKnown cid = true := by simp [isKnown, hc]
      have hr : ∀ l, (layerComponents (cid :: rest) l).length =
          if l = layerOfCategory comp.category
          then (layerComponents rest l).length + 1
          else (layerComponents rest l).length := by
        intro l
        unfold layerComponents
        rw [List.filter_cons]
        by_cases hl : l = layerOfCategory comp.category
        · have : resolvesToLayer cid l = true := by
            unfold resolvesToLayer; rw [hc, hl]; simp
          rw [this, if_pos rfl, if_pos hl, List.length_cons]
        · have : resolvesToLayer cid l = false := by
            unfold resolvesToLayer
            rw [hc]
            simp only [beq_eq_false_iff_ne, ne_eq]
            omega
          rw [this]
          simp [hl]
      rw [sum_map_range_update 7 (layerOfCategory comp.category)
        (fun l => (layerComponents rest l).length)
        (fun l => (layerComponents (cid :: rest) l).length) hr
        (layerOfCategory_lt_seven comp.category), ih,
        List.filter_cons, hk, if_pos rfl, List.length_cons]

/-- Claim C7 as amended: duplicates are not collapsed — each resolvable
occurrence of an identifier yields its own node, so the node count
equals the number of resolvable identifiers in the input, multiplicity
included. -/
theorem C7_amended_duplicates_not_collapsed (ids : List String) (scope : Scope) :
    (generate_architecture_from_components ids scope).nodes.length =
      (ids.filter isKnown).length := by
  show (generate_nodes ids).length = _
  unfold generate_nodes
  rw [List.length_flatMap]
  simp only [Function.comp_def]
  have : ∀ l ∈ List.range 7,
      (nodesInLayer l 0 (layerComponents ids l)).length =
        (layerComponents ids l).length := by
    intro l _
    exact nodesInLayer_length l (layerComponents ids l)
      (fun cid hc => mem_layerComponents_isKnown ids l cid hc) 0
  rw [List.map_congr_left this]
  exact sum_layerComponents_length ids

/-- Counterexample to claim C7 as stated: passing `nextjs` twice yields
two nodes, not the one-node set that passing it once yields. -/
theorem C7_counterexample_duplicates_make_two_nodes :
    (generate_architecture_from_components ["nextjs", "nextjs"] {}).nodes.length = 2 ∧
    (generate_architecture_from_components ["nextjs"] {}).nodes.length = 1 := by
  constructor <;> decide

/-! ### Scope defaults -/

/-- Counterexample to claim C8: the `Scope` model does not require the
caller to supply any field — a `Scope` constructed with every field
omitted is legal and is filled with the model's defaults
users=1000, trafficLevel=3, dataVolumeGB=100.0, regions=1,
availability=99.9. -/
theorem C8_counterexample_scope_has_defaults :
    ({} : Scope) = ⟨1000, 3, 100, 1, 999/10⟩ := rfl

/-- Claim C8 as amended: the `Scope` model supplies a default for every
one of its five fields (users=1000, trafficLevel=3, dataVolumeGB=100.0,
regions=1, availability=99.9), so a caller may omit any of them. -/
theorem C8_amended_scope_defaults :
    ({} : Scope).users = 1000 ∧ ({} : Scope).trafficLevel = 3 ∧
    ({} : Scope).dataVolumeGB = 100 ∧ ({} : Scope).regions = 1 ∧
    ({} : Scope).availability = 999/10 :=
  ⟨rfl, rfl, rfl, rfl, rfl⟩

/-! ### Edge generation: first-match semantics -/

/-- A node returned by `first_of_category` belongs to the list and has
the requested category. -/
theorem first_of_category_mem {nodes : List Node} {c : String} {t : Node}
    (h : first_of_category nodes c = some t) : t ∈ nodes ∧ t.data.category = c := by
  unfold first_of_category at h
  exact ⟨List.mem_of_find?_eq_some h, by simpa using List.find?_some h⟩

/-- Membership characterization of the per-source edge list. -/
theorem mem_edges_from {nodes : List Node} {s : Node} {e : Edge} :
    e ∈ edges_from nodes s ↔ ∃ c ∈ get_valid_targets s.data.category,
      ∃ t, first_of_category nodes c = some t ∧ e = mkEdge s t := by
  unfold edges_from
  simp only [List.mem_filterMap, Option.map_eq_some']
  constructor
  · rintro ⟨c, hc, t, ht, rfl⟩
    exact ⟨c, hc, t, ht, rfl⟩
  · rintro ⟨c, hc, t, ht, rfl⟩
    exact ⟨c, hc, t, ht, rfl⟩

/-- `countP` distributes over `flatMap` as a sum. -/
theorem countP_flatMap {α β : Type} (l : List α) (f : α → List β) (p : β → Bool) :
    (l.flatMap f).countP p = (l.map (fun a => (f a).countP p)).sum := by
  induction l with
  | nil => rfl
  | cons a t ih => simp [List.flatMap_cons, List.countP_append, ih]

/-- `countP` after `filterMap`. -/
theorem countP_filterMap {α β : Type} (f : α → Option β) (p : β → Bool)
    (l : List α) :
    (l.filterMap f).countP p = l.countP (fun a => ((f a).map p).getD false) := by
  induction l with
  | nil => rfl
  | cons a t ih =>
    cases h : f a with
    | none => simp [List.filterMap_cons, h, ih, List.countP_cons]
    | some b => simp [List.filterMap_cons, h, List.countP_cons, ih]

/-- For a fixed source category the valid-target list has no duplicates
(the connection table has no duplicate pairs). -/
theorem get_valid_targets_nodup (src : String) : (get_valid_targets src).Nodup := by
  unfold get_valid_targets
  have hv : VALID_CONNECTIONS.Nodup := by decide
  refine List.Nodup.map_on ?_ (hv.filter _)
  intro x hx y hy hxy
  have hx1 : x.1 = src := by simpa using (List.mem_filter.mp hx).2
  have hy1 : y.1 = src := by simpa using (List.mem_filter.mp hy).2
  exact Prod.ext (hx1.trans hy1.symm) hxy

/-- Distinct node ids make `Node.id` injective on the node list. -/
theorem node_id_injOn {nodes : List Node} (h : (nodes.map Node.id).Nodup) :
    ∀ a ∈ nodes, ∀ b ∈ nodes, a.id = b.id → a = b :=
  List.inj_on_of_nodup_map h

/-- Among the edges drawn for source `s`, exactly one goes to the first
node of a valid, populated target category. -/
theorem countP_edges_from_self {nodes : List Node} {s t : Node} {c : String}
    (hnodup : (nodes.map Node.id).Nodup)
    (hc : c ∈ get_valid_targets s.data.category)
    (ht : first_of_category nodes c = some t) :
    (edges_from nodes s).countP
      (fun e => e.source == s.id && e.target == t.id) = 1 := by
  unfold edges_from
  rw [countP_filterMap]
  have hcongr : ∀ c' ∈ get_valid_targets s.data.category,
      ((((first_of_category nodes c').map (mkEdge s)).map
          (fun e => e.source == s.id && e.target == t.id)).getD false) = true ↔
        (c' == c) = true := by
    intro c' _
    cases h' : first_of_category nodes c' with
    | none =>
      simp only [h', Option.map_none', Option.getD_none,
        Bool.false_eq_true, false_iff]
      intro hcc
      rw [beq_iff_eq] at hcc
      subst hcc
      rw [ht] at h'
      exact Option.noConfusion h'
    | some t' =>
      obtain ⟨ht'm, ht'c⟩ := first_of_category_mem h'
      obtain ⟨htm, htc⟩ := first_of_category_mem ht
      show (s.id == s.id && t'.id == t.id) = true ↔ (c' == c) = true
      simp only [beq_self_eq_true, Bool.true_and, beq_iff_eq]
      constructor
      · intro hid
        have ht2 : t' = t := node_id_injOn hnodup t' ht'm t htm hid
        rw [← ht'c, ht2, htc]
      · intro hcc
        subst hcc
        rw [ht] at h'
        have ht2 : t = t' := Option.some.inj h'
        rw [← ht2]
  rw [List.countP_congr hcongr]
  have : (get_valid_targets s.data.category).countP (fun c' => c' == c) =
      (get_valid_targets s.data.category).count c := rfl
  rw [this]
  exact List.count_eq_one_of_mem (get_valid_targets_nodup _) hc

/-- Edges drawn for a source with a different id never match. -/
theorem countP_edges_from_other {nodes : List Node} {s' : Node} {sid tid : String}
    (hne : s'.id ≠ sid) :
    (edges_from nodes s').countP (fun e => e.source == sid && e.target == tid) = 0 := by
  rw [List.countP_eq_zero]
  intro e he
  obtain ⟨c, hc, t, ht, rfl⟩ := mem_edges_from.mp he
  simp [mkEdge, hne]

/-- Summing a per-element count that is 1 at a unique element and 0
elsewhere gives 1. -/
theorem sum_map_eq_single {α : Type} [DecidableEq α] (l : List α) (h : α → ℕ)
    (s : α) (hone : h s = 1) (hzero : ∀ a ∈ l, a ≠ s → h a = 0)
    (hcount : l.count s = 1) : (l.map h).sum = 1 := by
  induction l with
  | nil => simp at hcount
  | cons a t ih =>
    by_cases has : a = s
    · subst has
      rw [List.count_cons_self] at hcount
      have hnot : a ∉ t := List.count_eq_zero.mp (by omega)
      rw [List.map_cons, List.sum_cons, hone]
      have hz : (t.map h).sum = 0 := by
        apply List.sum_eq_zero
        intro x hx
        obtain ⟨b, hb, rfl⟩ := List.mem_map.mp hx
        exact hzero b (List.mem_cons_of_mem _ hb) (fun hbs => hnot (hbs ▸ hb))
      omega
    · rw [List.map_cons, List.sum_cons,
        hzero a (List.mem_cons_self a t) has]
      rw [List.count_cons_of_ne (fun hh => has hh.symm)] at hcount
      rw [ih (fun b hb => hzero b (List.mem_cons_of_mem _ hb)) hcount]

/-- Appending a node whose category is already present does not change
any category's first node. -/
theorem first_of_category_append {nodes : List Node} {n' : Node}
    (h : ∃ m ∈ nodes, m.data.category = n'.data.category) (c : String) :
    first_of_category (nodes ++ [n']) c = first_of_category nodes c := by
  unfold first_of_category
  rw [List.find?_append]
  cases hf : nodes.find? (fun n => n.data.category == c) with
  | some t => rfl
  | none =>
    cases hn : ([n'].find? (fun n => n.data.category == c)) with
    | none => rfl
    | some x =>
      exfalso
      have hx : x ∈ [n'] := List.mem_of_find?_eq_some hn
      have hxn : x = n' := by simpa using hx
      subst hxn
      have hcat : x.data.category = c := by simpa using List.find?_some hn
      obtain ⟨m, hm, hmc⟩ := h
      rw [List.find?_eq_none] at hf
      exact hf m hm (by simp [hmc, hcat])

/-- Appending a node of an already-present category leaves every
existing node's edge list unchanged. -/
theorem edges_from_append {nodes : List Node} {n' : Node}
    (h : ∃ m ∈ nodes, m.data.category = n'.data.category) (a : Node) :
    edges_from (nodes ++ [n']) a = edges_from nodes a := by
  unfold edges_from
  have hfun : (fun c => (first_of_category (nodes ++ [n']) c).map (mkEdge a)) =
      (fun c => (first_of_category nodes c).map (mkEdge a)) := by
    funext c
    rw [first_of_category_append h c]
  rw [hfun]

/-- Claim C3: edge generation follows first-match semantics — for each
source node `s` and each valid target category that is populated, the
generated edges contain exactly one edge from `s` to the first node (in
creation order) of that category; appending a second node of an
already-connected category adds no edge from any existing source; and
every generated edge's handles are right/left when the source is left
of the target and bottom/top otherwise. -/
theorem C3_first_match_edges (nodes : List Node)
    (hnodup : (nodes.map Node.id).Nodup) :
    (∀ s ∈ nodes, ∀ c, ∀ t : Node, c ∈ get_valid_targets s.data.category →
      first_of_category nodes c = some t →
      mkEdge s t ∈ generate_edges nodes ∧
      (generate_edges nodes).countP
        (fun e => e.source == s.id && e.target == t.id) = 1) ∧
    (∀ s ∈ nodes, ∀ n' : Node,
      (∃ m ∈ nodes, m.data.category = n'.data.category) →
      n'.id ∉ nodes.map Node.id →
      (generate_edges (nodes ++ [n'])).filter (fun e => e.source == s.id) =
        (generate_edges nodes).filter (fun e => e.source == s.id)) ∧
    (∀ e ∈ generate_edges nodes, ∃ s ∈ nodes, ∃ t ∈ nodes,
      first_of_category nodes t.data.category = some t ∧
      e.source = s.id ∧ e.target = t.id ∧
      e.sourceHandle = (if s.position.x < t.position.x then "right" else "bottom") ∧
      e.targetHandle = (if s.position.x < t.position.x then "left" else "top")) := by
  refine ⟨?_, ?_, ?_⟩
  · intro s hs c t hc ht
    constructor
    · unfold generate_edges
      exact List.mem_flatMap.mpr ⟨s, hs, mem_edges_from.mpr ⟨c, hc, t, ht, rfl⟩⟩
    · unfold generate_edges
      rw [countP_flatMap]
      apply sum_map_eq_single nodes _ s (countP_edges_from_self hnodup hc ht)
      · intro a ha hne
        exact countP_edges_from_other
          (fun hid => hne (node_id_injOn hnodup a ha s hs hid))
      · exact List.count_eq_one_of_mem (List.Nodup.of_map _ hnodup) hs
  · intro s hs n' hcat hid
    unfold generate_edges
    rw [List.flatMap_append, List.filter_append]
    have h1 : nodes.flatMap (edges_from (nodes ++ [n'])) =
        nodes.flatMap (edges_from nodes) := by
      have : edges_from (nodes ++ [n']) = edges_from nodes :=
        funext (edges_from_append hcat)
      rw [this]
    have h2 : (([n'].flatMap (edges_from (nodes ++ [n']))).filter
        (fun e => e.source == s.id)) = [] := by
      rw [List.filter_eq_nil_iff]
      intro e he
      simp only [List.flatMap_cons, List.flatMap_nil, List.append_nil] at he
      obtain ⟨c, hc, t2, ht2, rfl⟩ := mem_edges_from.mp he
      have hne : n'.id ≠ s.id :=
        fun hh => hid (hh ▸ List.mem_map_of_mem Node.id hs)
      simp [mkEdge, hne]
    rw [h1, h2, List.append_nil]
  · intro e he
    obtain ⟨s, hs, he'⟩ := List.mem_flatMap.mp he
    obtain ⟨c, hc, t, ht, rfl⟩ := mem_edges_from.mp he'
    obtain ⟨htm, htc⟩ := first_of_category_mem ht
    exact ⟨s, hs, t, htm, by rw [htc]; exact ht, rfl, rfl, rfl, rfl⟩

/-- Concrete two-node graph used by the edge witnesses. -/
def witnessFrontendNode : Node :=
  ⟨"nextjs-0-0", ⟨100, 100⟩, ⟨"Next.js", "nextjs", "frontend"⟩⟩

/-- Concrete backend node used by the edge witnesses. -/
def witnessBackendNode : Node :=
  ⟨"fastapi-2-0", ⟨700, 100⟩, ⟨"FastAPI", "fastapi", "backend"⟩⟩

/-- Witness for C3: in the concrete frontend/backend graph, exactly one
edge runs from the frontend node to the backend node. -/
theorem C3_first_match_edges_witness :
    (generate_edges [witnessFrontendNode, witnessBackendNode]).countP
      (fun e => e.source == witnessFrontendNode.id &&
        e.target == witnessBackendNode.id) = 1 :=
  ((C3_first_match_edges [witnessFrontendNode, witnessBackendNode]
      (by decide)).1 witnessFrontendNode (by decide) "backend"
      witnessBackendNode (by decide) (by decide)).2

/-- Claim C10: any node list containing a backend node gets a self-loop
on the first backend node — (backend, backend) is a valid connection
and that node is the first node of its own target category — with
handles bottom/top since the positions tie. -/
theorem C10_backend_self_loop (nodes : List Node)
    (h : ∃ n ∈ nodes, n.data.category = "backend") :
    ∃ b, first_of_category nodes "backend" = some b ∧
      mkEdge b b ∈ generate_edges nodes ∧
      (mkEdge b b).source = b.id ∧ (mkEdge b b).target = b.id ∧
      (mkEdge b b).sourceHandle = "bottom" ∧
      (mkEdge b b).targetHandle = "top" := by
  obtain ⟨n, hn, hcat⟩ := h
  have hsome : (first_of_category nodes "backend").isSome := by
    unfold first_of_category
    rw [List.find?_isSome]
    exact ⟨n, hn, by simp [hcat]⟩
  obtain ⟨b, hb⟩ := Option.isSome_iff_exists.mp hsome
  obtain ⟨hbm, hbc⟩ := first_of_category_mem hb
  refine ⟨b, hb, ?_, rfl, rfl, ?_, ?_⟩
  · unfold generate_edges
    apply List.mem_flatMap.mpr
    refine ⟨b, hbm, mem_edges_from.mpr ⟨"backend", ?_, b, hb, rfl⟩⟩
    rw [hbc]
    decide
  · simp [mkEdge, lt_irrefl]
  · simp [mkEdge, lt_irrefl]

/-- Witness for C10 on a concrete one-node backend graph. -/
theorem C10_backend_self_loop_witness :
    (∃ n ∈ [witnessBackendNode], n.data.category = "backend") ∧
    (∃ b, first_of_category [witnessBackendNode] "backend" = some b ∧
      mkEdge b b ∈ generate_edges [witnessBackendNode] ∧
      (mkEdge b b).source = b.id ∧ (mkEdge b b).target = b.id ∧
      (mkEdge b b).sourceHandle = "bottom" ∧
      (mkEdge b b).targetHandle = "top") :=
  ⟨⟨witnessBackendNode, by decide, rfl⟩,
   C10_backend_self_loop [witnessBackendNode]
     ⟨witnessBackendNode, by decide, rfl⟩⟩

/-! ### Carbon model (web-dashboard/backend/app/services/carbon_service.py) -/

/-- `REGION_CARBON_INTENSITY.get(region, REGION_CARBON_INTENSITY["default"])`
in gCO2/kWh. -/
def region_carbon_intensity (region : String) : ℚ :=
  match region with
  | "us-east-1" => 379
  | "us-east-2" => 531
  | "us-west-1" => 210
  | "us-west-2" => 102
  | "eu-west-1" => 296
  | "eu-west-2" => 228
  | "eu-central-1" => 338
  | "eu-north-1" => 8
  | "ap-southeast-1" => 431
  | "ap-northeast-1" => 465
  | "ap-south-1" => 708
  | "sa-east-1" => 61
  | "ca-central-1" => 120
  | "us-central1" => 440
  | "us-east4" => 379
  | "europe-west1" => 80
  | "europe-north1" => 8
  | "asia-east1" => 509
  | "eastus" => 379
  | "westus" => 210
  | "westeurope" => 296
  | "northeurope" => 296
  | _ => 400

/-- `COMPONENT_POWER_DRAW.get(category, 30.0)` in watts. -/
def component_power_draw (category : String) : ℚ :=
  match category with
  | "backend" => 50
  | "frontend" => 5
  | "database" => 80
  | "hosting" => 60
  | "ml" => 300
  | "auth" => 10
  | "cache" => 30
  | "queue" => 25
  | "storage" => 15
  | "cicd" => 20
  | "monitoring" => 10
  | "search" => 60
  | _ => 30

/-- Scaled power draw per node:
`power × max(trafficMul, 0.5) × max(userMul, 0.5)`, multiplied again by
`trafficMul` for the `ml` category. -/
def scaled_power (traffic_mul user_mul : ℚ) (category : String) : ℚ :=
  let sp := component_power_draw category * max traffic_mul (1/2) * max user_mul (1/2)
  if category = "ml" then sp * traffic_mul else sp

/-- Energy per node: `scaledPower × 730 / 1000` kWh/month. -/
def node_energy_kwh (traffic_mul user_mul : ℚ) (category : String) : ℚ :=
  scaled_power traffic_mul user_mul category * 730 / 1000

/-- One `ComponentCarbon` breakdown record. -/
structure ComponentCarbon where
  component_id : String
  component_name : String
  category : String
  energy_kwh : ℚ
  carbon_kg : ℚ
  power_draw_watts : ℚ
deriving DecidableEq, Repr

/-- The carbon metrics of a report (the `cost_usd` field delegated to a
separate cost calculator is not part of the carbon computation and is
not modelled). -/
structure CarbonMetrics where
  energy_kwh : ℚ
  carbon_kg : ℚ
  carbon_intensity : ℚ
deriving DecidableEq, Repr

/-- The per-node loop of `CarbonService.generate_report`: builds the
breakdown (rounded per entry) and accumulates unrounded energy and
carbon totals. -/
def carbonLoop (intensity traffic_mul user_mul : ℚ) :
    List Node → (List ComponentCarbon × ℚ × ℚ)
  | [] => ([], 0, 0)
  | n :: rest =>
    let e := node_energy_kwh traffic_mul user_mul n.data.category
    let ck := e * intensity / 1000
    let acc := carbonLoop intensity traffic_mul user_mul rest
    (⟨n.data.componentId, n.data.label, n.data.category, round4 e, round4 ck,
      round2 (scaled_power traffic_mul user_mul n.data.category)⟩ :: acc.1,
     e + acc.2.1, ck + acc.2.2)

/-- `CarbonService.generate_report`, carbon part.  The source computes
`user_mul = math.log10(users + 1) / 2.0`, a transcendental of the scope;
the embedding takes that multiplier as an unconstrained parameter and
the theorems quantify over every value, which covers the value the
source computes.  The report's `cost_usd` (from a separate cost
calculator) and its identity/timestamp fields are outside the carbon
computation and are not modelled. -/
def generate_report (nodes : List Node) (scope : Scope) (region : String)
    (user_mul : ℚ) : CarbonMetrics × List ComponentCarbon :=
  let intensity := region_carbon_intensity region
  let traffic_mul := (scope.trafficLevel : ℚ) / 3
  let acc := carbonLoop intensity traffic_mul user_mul nodes
  (⟨round4 acc.2.1, round4 acc.2.2, intensity⟩, acc.1)

/-- Python's integer rounding moves a value by at most 1/2. -/
theorem pyRound_abs_le (q : ℚ) : |(pyRound q : ℚ) - q| ≤ 1/2 := by
  unfold pyRound
  have h0 : (⌊q⌋ : ℚ) ≤ q := Int.floor_le q
  have h1 : q < ⌊q⌋ + 1 := Int.lt_floor_add_one q
  split_ifs with ha hb hc <;>
    (rw [abs_le]; constructor <;> push_cast <;> linarith)

/-- 4-decimal rounding moves a value by at most 1/20000. -/
theorem round4_abs_le (q : ℚ) : |round4 q - q| ≤ 1/20000 := by
  unfold round4
  have h := pyRound_abs_le (q * 10000)
  rw [abs_le] at h ⊢
  have heq : (pyRound (q * 10000) : ℚ) / 10000 - q =
      ((pyRound (q * 10000) : ℚ) - q * 10000) / 10000 := by ring
  rw [heq]
  constructor <;> linarith

/-- The accumulated carbon total is the accumulated energy total times
intensity over 1000. -/
theorem carbonLoop_carbon_eq (i tm um : ℚ) (nodes : List Node) :
    (carbonLoop i tm um nodes).2.2 = (carbonLoop i tm um nodes).2.1 * i / 1000 := by
  induction nodes with
  | nil => simp [carbonLoop]
  | cons n rest ih =>
    simp only [carbonLoop, ih]
    ring

/-- The accumulated energy total does not depend on the intensity. -/
theorem carbonLoop_energy_intensity_free (i i' tm um : ℚ) (nodes : List Node) :
    (carbonLoop i tm um nodes).2.1 = (carbonLoop i' tm um nodes).2.1 := by
  induction nodes with
  | nil => rfl
  | cons n rest ih => simp only [carbonLoop, ih]

/-- Every category draws at least 5 watts. -/
theorem component_power_draw_ge_five (category : String) :
    5 ≤ component_power_draw category := by
  unfold component_power_draw
  split <;> norm_num

/-- With a traffic level of at least 1, every node contributes at least
0.3 kWh/month, whatever the user multiplier. -/
theorem node_energy_ge (tm um : ℚ) (category : String) (htm : 1/3 ≤ tm) :
    3/10 ≤ node_energy_kwh tm um category := by
  unfold node_energy_kwh scaled_power
  have hpd := component_power_draw_ge_five category
  have h1 : (1:ℚ)/2 ≤ max tm (1/2) := le_max_right _ _
  have h2 : (1:ℚ)/2 ≤ max um (1/2) := le_max_right _ _
  by_cases hml : category = "ml"
  · subst hml
    have hpd300 : component_power_draw "ml" = 300 := rfl
    rw [if_pos rfl, hpd300]
    have hA : (300:ℚ) * (1/2) ≤ 300 * max tm (1/2) := by linarith
    have hB : (300:ℚ) * (1/2) * (1/2) ≤ 300 * max tm (1/2) * max um (1/2) :=
      mul_le_mul hA h2 (by norm_num) (by linarith)
    have hC : (300:ℚ) * (1/2) * (1/2) * (1/3) ≤
        300 * max tm (1/2) * max um (1/2) * tm :=
      mul_le_mul hB htm (by norm_num) (by linarith)
    linarith
  · simp only [if_neg hml]
    have hA : (5:ℚ) * (1/2) ≤ component_power_draw category * max tm (1/2) :=
      mul_le_mul hpd h1 (by norm_num) (by linarith)
    have hB : (5:ℚ) * (1/2) * (1/2) ≤
        component_power_draw category * max tm (1/2) * max um (1/2) :=
      mul_le_mul hA h2 (by norm_num) (by linarith)
    linarith

/-- The accumulated energy total is nonnegative. -/
theorem carbonLoop_energy_nonneg (i tm um : ℚ) (nodes : List Node)
    (htm : 1/3 ≤ tm) : 0 ≤ (carbonLoop i tm um nodes).2.1 := by
  induction nodes with
  | nil => simp [carbonLoop]
  | cons n rest ih =>
    simp only [carbonLoop]
    have := node_energy_ge tm um n.data.category htm
    linarith

/-- A nonempty node list accumulates at least 0.3 kWh/month. -/
theorem carbonLoop_energy_ge (i tm um : ℚ) (nodes : List Node)
    (hne : nodes ≠ []) (htm : 1/3 ≤ tm) :
    3/10 ≤ (carbonLoop i tm um nodes).2.1 := by
  cases nodes with
  | nil => exact absurd rfl hne
  | cons n rest =>
    simp only [carbonLoop]
    have he := node_energy_ge tm um n.data.category htm
    have hr := carbonLoop_energy_nonneg i tm um rest htm
    linarith

/-- Claim C9: for an identical nonempty node list, scope and user
multiplier, the report for region `eu-north-1` (intensity 8 gCO2/kWh)
has strictly lower total carbon than the report for region `ap-south-1`
(intensity 708 gCO2/kWh). -/
theorem C9_greener_region_less_carbon (nodes : List Node) (scope : Scope)
    (user_mul : ℚ) (hne : nodes ≠ []) (htl : 1 ≤ scope.trafficLevel) :
    (generate_report nodes scope "eu-north-1" user_mul).1.carbon_kg <
      (generate_report nodes scope "ap-south-1" user_mul).1.carbon_kg := by
  have hg : ∀ r : String,
      (generate_report nodes scope r user_mul).1.carbon_kg =
        round4 ((carbonLoop (region_carbon_intensity r)
          ((scope.trafficLevel : ℚ) / 3) user_mul nodes).2.2) := fun r => rfl
  rw [hg "eu-north-1", hg "ap-south-1"]
  have hieu : region_carbon_intensity "eu-north-1" = 8 := rfl
  have hiap : region_carbon_intensity "ap-south-1" = 708 := rfl
  rw [hieu, hiap]
  have htm : 1/3 ≤ (scope.trafficLevel : ℚ) / 3 := by
    have : (1:ℚ) ≤ (scope.trafficLevel : ℚ) := by exact_mod_cast htl
    linarith
  rw [carbonLoop_carbon_eq, carbonLoop_carbon_eq]
  rw [carbonLoop_energy_intensity_free 708 8 ((scope.trafficLevel : ℚ) / 3)
    user_mul nodes]
  have hE := carbonLoop_energy_ge 8 ((scope.trafficLevel : ℚ) / 3) user_mul
    nodes hne htm
  have h1 := round4_abs_le
    ((carbonLoop 8 ((scope.trafficLevel : ℚ) / 3) user_mul nodes).2.1 * 8 / 1000)
  have h2 := round4_abs_le
    ((carbonLoop 8 ((scope.trafficLevel : ℚ) / 3) user_mul nodes).2.1 * 708 / 1000)
  rw [abs_le] at h1 h2
  obtain ⟨h1l, h1r⟩ := h1
  obtain ⟨h2l, h2r⟩ := h2
  linarith

/-- Witness for C9 on a concrete one-node graph with the default scope
and user multiplier 1. -/
theorem C9_greener_region_less_carbon_witness :
    ([witnessBackendNode] : List Node) ≠ [] ∧ 1 ≤ ({} : Scope).trafficLevel ∧
    (generate_report [witnessBackendNode] {} "eu-north-1" 1).1.carbon_kg <
      (generate_report [witnessBackendNode] {} "ap-south-1" 1).1.carbon_kg :=
  ⟨by decide, by decide,
   C9_greener_region_less_carbon [witnessBackendNode] {} 1 (by decide) (by decide)⟩
